import Mathlib

/-!
# Verification of the withings-mcp token-lifecycle and normalizer code

Shallow embedding of the TypeScript sources of the `withings-mcp` repository:

* `src/whoop.ts` (provider client + normalizer for cycles / recoveries / workouts),
* `src/withings.ts` (provider client + weight-measurement normalizer),
* `api/mcp/[key].ts` (Redis-backed token store and auto-refresh wrappers),
* `api/mcp.ts` (blob-backed and KV-backed variants of the same wrappers),
* `src/index.ts` (stdio tool handlers; date-range defaulting).

Modelling conventions:

* JavaScript numbers are modelled as `ℚ`; every concrete value appearing in a
  claim was cross-checked to be exact (or to round identically) under binary64,
  so the rational model agrees with the runtime at all inputs used here.
* `Math.round x` is `⌊x + 1/2⌋` (JS rounds half toward +∞).
* Fallible external effects (Redis/KV/blob reads and writes, the OAuth token
  endpoint, the wrapped data call) are parameters of an `Env` record giving the
  outcome of each call site; the wrappers additionally return the list of
  external `Event`s they perform, in order, so that "refresh happens before /
  after the operation" style properties are statements about the trace.
* `Date.now()` is the single `Env.now` value (time is frozen during one call).
* ISO-8601 rendering of timestamps and `Date` string parsing are abstracted:
  timestamps travel as epoch milliseconds (`Int`), and a rendered query
  parameter carries the decimal rendering of the number the code computes.
-/

/-- JS string `includes` on lists of characters. -/
def listIncludes (pat : List Char) : List Char → Bool
  | [] => pat.isPrefixOf ([] : List Char)
  | c :: cs => pat.isPrefixOf (c :: cs) || listIncludes pat cs

/-- JS `s.includes(pat)`. -/
def stringIncludes (s pat : String) : Bool :=
  listIncludes pat.toList s.toList

/-- JS truthiness of a string: the empty string is falsy. -/
def jsTruthy (s : String) : Bool := s != ""

/-- JS truthiness of an optional string (`undefined` is falsy). -/
def jsTruthyOpt : Option String → Bool
  | some s => jsTruthy s
  | none => false

/-- JS `s.trim()`: strip whitespace from both ends (an executable model of
`String.trim`). -/
def jsTrim (s : String) : String :=
  ⟨((s.data.dropWhile Char.isWhitespace).reverse.dropWhile Char.isWhitespace).reverse⟩

/-- JS `Math.round`: round half toward positive infinity. -/
def jsRound (q : ℚ) : ℤ := (q + 1/2).floor

/-- `Math.round(q * 10) / 10` — one decimal, used for strain and hrv. -/
def round1 (q : ℚ) : ℚ := (jsRound (q * 10) : ℚ) / 10

/-- `Math.round(q * 100) / 100` — two decimals, used for body-composition values. -/
def round2 (q : ℚ) : ℚ := (jsRound (q * 100) : ℚ) / 100

/-- src/whoop.ts `kilojouleToCalories`: `Math.round(kj * 0.239)`. -/
def kilojouleToCalories (kj : ℚ) : ℤ := jsRound (kj * 0.239)

/-! ## WHOOP data model and normalizers (src/whoop.ts) -/

/-- `score_state` of a cycle / recovery / workout. -/
inductive ScoreState where
  | SCORED
  | PENDING_SCORE
  | UNSCORABLE
deriving DecidableEq, Repr

/-- The `score` object of a `WhoopCycle`. -/
structure CycleScore where
  strain : ℚ
  kilojoule : ℚ
  average_heart_rate : ℚ
  max_heart_rate : ℚ
deriving DecidableEq, Repr

/-- src/whoop.ts `WhoopCycle` (the fields the normalizer reads).
`start` is the upstream ISO string, copied verbatim into the output. -/
structure WhoopCycle where
  id : ℤ
  start : String
  score_state : ScoreState
  score : Option CycleScore
deriving DecidableEq, Repr

/-- The `score` object of a `WhoopRecovery`. -/
structure RecoveryScore where
  recovery_score : ℚ
  resting_heart_rate : ℚ
  hrv_rmssd_milli : ℚ
deriving DecidableEq, Repr

/-- src/whoop.ts `WhoopRecovery` (the fields the normalizer reads). -/
structure WhoopRecovery where
  cycle_id : ℤ
  score_state : ScoreState
  score : Option RecoveryScore
deriving DecidableEq, Repr

/-- The `score` object of a `WhoopWorkout`. -/
structure WorkoutScore where
  strain : ℚ
  average_heart_rate : ℚ
  max_heart_rate : ℚ
  kilojoule : ℚ
  distance_meter : Option ℚ
deriving DecidableEq, Repr

/-- src/whoop.ts `WhoopWorkout` (the fields the normalizer reads).
`start`/`stop` are the parsed `Date` timestamps in epoch milliseconds
(the TS fields are ISO strings named `start`/`end`; `end` is a Lean keyword). -/
structure WhoopWorkout where
  id : ℤ
  start : ℤ
  stop : ℤ
  sport_name : String
  score_state : ScoreState
  score : Option WorkoutScore
deriving DecidableEq, Repr

/-- Nested `recovery` object of a `DailyStats` entry. -/
structure RecoverySummary where
  score : ℚ
  restingHeartRate : ℚ
  hrv : ℚ
deriving DecidableEq, Repr

/-- src/whoop.ts `DailyStats`. -/
structure DailyStats where
  date : String
  strain : ℚ
  caloriesBurned : ℤ
  averageHeartRate : ℚ
  maxHeartRate : ℚ
  recovery : Option RecoverySummary
deriving DecidableEq, Repr

/-- src/whoop.ts `WorkoutData`. `date` is the workout start timestamp
(epoch ms, see `WhoopWorkout`). -/
structure WorkoutData where
  id : ℤ
  date : ℤ
  sport : String
  duration : ℤ
  strain : ℚ
  caloriesBurned : ℤ
  averageHeartRate : ℚ
  maxHeartRate : ℚ
  distance : Option ℤ
deriving DecidableEq, Repr

/-- The `recoveryMap` of `getWhoopDailyStats`: recoveries are inserted into a
`Map` keyed by `cycle_id` (a later entry overwrites an earlier one) and then
looked up, i.e. the last recovery with the given `cycle_id` wins. -/
def recoveryLookup (recoveries : List WhoopRecovery) (id : ℤ) : Option WhoopRecovery :=
  recoveries.foldl (fun acc r => if r.cycle_id = id then some r else acc) none

/-- Whether a cycle passes the filter `cycle.score_state === "SCORED" && cycle.score`. -/
def cycleScored (c : WhoopCycle) : Bool :=
  c.score_state == .SCORED && c.score.isSome

/-- Body of the `map` in `getWhoopDailyStats` (the `cycle.score!` non-null
assertion is modelled by `Option.getD`; the filter guarantees the default is
never used). -/
def cycleToDailyStats (recoveries : List WhoopRecovery) (c : WhoopCycle) : DailyStats :=
  let s := c.score.getD ⟨0, 0, 0, 0⟩
  { date := c.start
    strain := round1 s.strain
    caloriesBurned := kilojouleToCalories s.kilojoule
    averageHeartRate := s.average_heart_rate
    maxHeartRate := s.max_heart_rate
    recovery :=
      match recoveryLookup recoveries c.id with
      | some r =>
        if r.score_state == .SCORED && r.score.isSome then
          let rs := r.score.getD ⟨0, 0, 0⟩
          some { score := rs.recovery_score
                 restingHeartRate := rs.resting_heart_rate
                 hrv := round1 rs.hrv_rmssd_milli }
        else none
      | none => none }

/-- src/whoop.ts `getWhoopDailyStats`, as a pure function of the two record
lists the provider returned (the HTTP fetches are external). -/
def getWhoopDailyStats (cycles : List WhoopCycle) (recoveries : List WhoopRecovery) :
    List DailyStats :=
  (cycles.filter cycleScored).map (cycleToDailyStats recoveries)

/-- Whether a workout passes the filter `workout.score_state === "SCORED" && workout.score`. -/
def workoutScored (w : WhoopWorkout) : Bool :=
  w.score_state == .SCORED && w.score.isSome

/-- Body of the `map` in `getWhoopWorkoutData`. `durationMinutes` is
`Math.round((end.getTime() - start.getTime()) / 60000)`; the
`if (workout.score!.distance_meter)` truthiness test drops both an absent and
a zero distance. -/
def workoutToData (w : WhoopWorkout) : WorkoutData :=
  let s := w.score.getD ⟨0, 0, 0, 0, none⟩
  let durationMinutes := jsRound (((w.stop - w.start : ℤ) : ℚ) / 60000)
  { id := w.id
    date := w.start
    sport := w.sport_name
    duration := durationMinutes
    strain := round1 s.strain
    caloriesBurned := kilojouleToCalories s.kilojoule
    averageHeartRate := s.average_heart_rate
    maxHeartRate := s.max_heart_rate
    distance :=
      match s.distance_meter with
      | some d => if d ≠ 0 then some (jsRound d) else none
      | none => none }

/-- src/whoop.ts `getWhoopWorkoutData`, as a pure function of the returned
workout records. -/
def getWhoopWorkoutData (workouts : List WhoopWorkout) : List WorkoutData :=
  (workouts.filter workoutScored).map workoutToData

/-! ## Withings weight normalizer (src/withings.ts) -/

/-- src/withings.ts `Measurement`: a raw `(value, type, unit)` triple encoding
the quantity `value * 10^unit`. -/
structure Measurement where
  value : ℤ
  type : ℤ
  unit : ℤ
deriving DecidableEq, Repr

/-- One entry of `measuregrps`: `date` is the upstream epoch-seconds stamp. -/
structure MeasureGroup where
  date : ℤ
  measures : List Measurement
deriving DecidableEq, Repr

/-- src/withings.ts `WeightData`. `date` is `group.date * 1000`, the epoch-ms
value the code feeds to `new Date(...).toISOString()` (ISO rendering
abstracted). `weight` starts at `0` and is overwritten by a WEIGHT measure. -/
structure WeightData where
  weight : ℚ
  date : ℤ
  fatRatio : Option ℚ := none
  fatMass : Option ℚ := none
  muscleMass : Option ℚ := none
  boneMass : Option ℚ := none
  hydration : Option ℚ := none
deriving DecidableEq, Repr

/-- The decoded quantity of one raw measurement: `value * Math.pow(10, unit)`. -/
def decodeMeasure (m : Measurement) : ℚ :=
  (m.value : ℚ) * (10 : ℚ) ^ m.unit

/-- One iteration of the `switch` in `parseWeightData`: measurement type codes
1 = WEIGHT, 6 = FAT_RATIO, 8 = FAT_MASS, 76 = MUSCLE_MASS, 77 = HYDRATION,
88 = BONE_MASS; unknown types fall through unchanged. -/
def applyMeasure (r : WeightData) (m : Measurement) : WeightData :=
  let value := decodeMeasure m
  if m.type = 1 then { r with weight := round2 value }
  else if m.type = 6 then { r with fatRatio := some (round2 value) }
  else if m.type = 8 then { r with fatMass := some (round2 value) }
  else if m.type = 76 then { r with muscleMass := some (round2 value) }
  else if m.type = 77 then { r with hydration := some (round2 value) }
  else if m.type = 88 then { r with boneMass := some (round2 value) }
  else r

/-- The `map` body of `parseWeightData`: start from `{ weight: 0, date }` and
fold the group's measures through the `switch`. -/
def parseGroup (g : MeasureGroup) : WeightData :=
  g.measures.foldl applyMeasure { weight := 0, date := g.date * 1000 }

/-- src/withings.ts `parseWeightData`: map each group, then
`.filter((d) => d.weight > 0)`. -/
def parseWeightData (measureGroups : List MeasureGroup) : List WeightData :=
  (measureGroups.map parseGroup).filter fun d => decide (0 < d.weight)

/-! ## Token store and auto-refresh wrappers
(api/mcp/[key].ts, and the blob/KV variants in api/mcp.ts) -/

/-- The persisted token record `StoredTokens` (`expiresAt` in epoch ms,
`0` = unknown expiry). -/
structure StoredTokens where
  accessToken : String
  refreshToken : String
  expiresAt : ℤ
deriving DecidableEq, Repr

/-- The token endpoint's `TokenResponse` (the fields the store reads). -/
structure TokenResponse where
  access_token : String
  refresh_token : String
  expires_in : ℤ
deriving DecidableEq, Repr

/-- The record a save writes: `{ accessToken, refreshToken,
expiresAt: Date.now() + expires_in * 1000 }`. -/
def mkStoredTokens (now : ℤ) (t : TokenResponse) : StoredTokens :=
  { accessToken := t.access_token
    refreshToken := t.refresh_token
    expiresAt := now + t.expires_in * 1000 }

/-- External calls a wrapper performs, in order. `opCall i tok` is the `i`-th
invocation of the wrapped operation (0 = first try, 1 = the single retry)
with access token `tok`; `saveWrite rec` is a durable-store write attempt of
record `rec`. -/
inductive Event where
  | load
  | refreshCall
  | saveWrite (rec : StoredTokens)
  | opCall (i : ℕ) (token : String)
deriving DecidableEq, Repr

/-- Outcomes of the external calls one wrapper invocation can make.
`store1`/`store2` are the first and second durable-store reads (`.error` =
the store threw), `refresh1`/`refresh2` the first and second token-endpoint
outcomes, `set1`/`set2` the first and second durable-store write outcomes,
`envAccess`/`envRefresh` the static env-var token fallback, and `op i tok`
the outcome of the `i`-th invocation of the wrapped operation. Errors carry
the JS `Error` message. -/
structure Env (α : Type) where
  now : ℤ
  store1 : Except String (Option StoredTokens)
  store2 : Except String (Option StoredTokens)
  envAccess : Option String
  envRefresh : Option String
  refresh1 : Except String TokenResponse
  refresh2 : Except String TokenResponse
  set1 : StoredTokens → Except String Unit
  set2 : StoredTokens → Except String Unit
  op : ℕ → String → Except String α

/-- api/mcp/[key].ts `getWithingsTokens`: Redis first (any failure or a null
value falls through), then the env-var pair with `expiresAt = 0`; `null` if
neither yields tokens. The `if (A && R)` truthiness test drops empty strings. -/
def getWithingsTokens (store : Except String (Option StoredTokens))
    (envAccess envRefresh : Option String) : Option StoredTokens :=
  match store with
  | .ok (some t) => some t
  | _ =>
    match envAccess, envRefresh with
    | some a, some r =>
      if jsTruthy a && jsTruthy r then
        some { accessToken := a, refreshToken := r, expiresAt := 0 }
      else none
    | _, _ => none

/-- api/mcp/[key].ts `getWhoopTokens`: like `getWithingsTokens` but the
env-var fallback trims both values before the truthiness test. -/
def getWhoopTokens (store : Except String (Option StoredTokens))
    (envAccess envRefresh : Option String) : Option StoredTokens :=
  match store with
  | .ok (some t) => some t
  | _ =>
    match envAccess.map jsTrim, envRefresh.map jsTrim with
    | some a, some r =>
      if jsTruthy a && jsTruthy r then
        some { accessToken := a, refreshToken := r, expiresAt := 0 }
      else none
    | _, _ => none

/-- api/mcp.ts (KV variant) `getTokens`: same logic as `getWithingsTokens`
over the KV store. -/
def getTokens (store : Except String (Option StoredTokens))
    (envAccess envRefresh : Option String) : Option StoredTokens :=
  getWithingsTokens store envAccess envRefresh

/-- api/mcp/[key].ts `saveWithingsTokens`: builds the record and calls
`redis.set` with NO try/catch — a store failure propagates to the caller. -/
def saveWithingsTokens (set : StoredTokens → Except String Unit) (now : ℤ)
    (t : TokenResponse) : Except String Unit :=
  set (mkStoredTokens now t)

/-- api/mcp/[key].ts `saveWhoopTokens`: identical shape to
`saveWithingsTokens` (no try/catch around `redis.set`). -/
def saveWhoopTokens (set : StoredTokens → Except String Unit) (now : ℤ)
    (t : TokenResponse) : Except String Unit :=
  set (mkStoredTokens now t)

/-- api/mcp.ts (KV variant) `saveTokens`: the `kv.set` is wrapped in
try/catch, so a persistence failure is swallowed and the function returns
normally in both cases. -/
def saveTokens (set : StoredTokens → Except String Unit) (now : ℤ)
    (t : TokenResponse) : Unit :=
  match set (mkStoredTokens now t) with
  | .ok _ => ()
  | .error _ => ()

/-- api/mcp.ts (blob variant) `saveTokens`: `put` is wrapped in try/catch;
on success the blob URL is returned, on failure `null` — never an exception. -/
def saveTokensBlob (put : StoredTokens → Except String String) (now : ℤ)
    (t : TokenResponse) : Option String :=
  match put (mkStoredTokens now t) with
  | .ok url => some url
  | .error _ => none

/-- src/withings.ts `refreshAccessToken`: throws `"No refresh token
available"` when `config.refreshToken` is falsy, otherwise the token
endpoint's outcome. -/
def refreshAccessToken (cfgRefreshToken : Option String)
    (outcome : Except String TokenResponse) : Except String TokenResponse :=
  if jsTruthyOpt cfgRefreshToken then outcome
  else .error "No refresh token available"

/-- src/whoop.ts `refreshWhoopAccessToken`: same falsy-refresh-token guard as
`refreshAccessToken`. -/
def refreshWhoopAccessToken (cfgRefreshToken : Option String)
    (outcome : Except String TokenResponse) : Except String TokenResponse :=
  if jsTruthyOpt cfgRefreshToken then outcome
  else .error "No refresh token available"

/-- The shared proactive-expiry test:
`tokens.expiresAt > 0 && tokens.expiresAt < Date.now() + 5 * 60 * 1000`. -/
def isExpired (now : ℤ) (tokens : StoredTokens) : Bool :=
  decide (0 < tokens.expiresAt) && decide (tokens.expiresAt < now + 5 * 60 * 1000)

/-- api/mcp/[key].ts `ensureValidWithingsToken`: load; when near expiry and a
refresh token is present (truthy), refresh and save inside a try/catch that
degrades ANY failure (refresh or save) to `null`; otherwise return the stored
access token. Also returns the trace of external calls. -/
def ensureValidWithingsToken (env : Env α) : List Event × Option String :=
  match getWithingsTokens env.store1 env.envAccess env.envRefresh with
  | none => ([.load], none)
  | some tokens =>
    if isExpired env.now tokens && jsTruthy tokens.refreshToken then
      match refreshAccessToken (some tokens.refreshToken) env.refresh1 with
      | .error _ => ([.load, .refreshCall], none)
      | .ok newTokens =>
        match saveWithingsTokens env.set1 env.now newTokens with
        | .error _ =>
          ([.load, .refreshCall, .saveWrite (mkStoredTokens env.now newTokens)], none)
        | .ok _ =>
          ([.load, .refreshCall, .saveWrite (mkStoredTokens env.now newTokens)],
            some newTokens.access_token)
    else ([.load], some tokens.accessToken)

/-- api/mcp/[key].ts `ensureValidWhoopToken`: same shape as the Withings one;
the config passed to the refresh call carries the TRIMMED refresh token. -/
def ensureValidWhoopToken (env : Env α) : List Event × Option String :=
  match getWhoopTokens env.store1 env.envAccess env.envRefresh with
  | none => ([.load], none)
  | some tokens =>
    if isExpired env.now tokens && jsTruthy tokens.refreshToken then
      match refreshWhoopAccessToken (some (jsTrim tokens.refreshToken)) env.refresh1 with
      | .error _ => ([.load, .refreshCall], none)
      | .ok newTokens =>
        match saveWhoopTokens env.set1 env.now newTokens with
        | .error _ =>
          ([.load, .refreshCall, .saveWrite (mkStoredTokens env.now newTokens)], none)
        | .ok _ =>
          ([.load, .refreshCall, .saveWrite (mkStoredTokens env.now newTokens)],
            some newTokens.access_token)
    else ([.load], some tokens.accessToken)

/-- api/mcp.ts (KV variant) `ensureValidToken`: like the above but with no
refresh-token guard on the proactive branch, and the save (`saveTokens`)
cannot fail, so only a refresh failure degrades to `null`. -/
def ensureValidToken (env : Env α) : List Event × Option String :=
  match getTokens env.store1 env.envAccess env.envRefresh with
  | none => ([.load], none)
  | some tokens =>
    if isExpired env.now tokens then
      match refreshAccessToken (some tokens.refreshToken) env.refresh1 with
      | .error _ => ([.load, .refreshCall], none)
      | .ok newTokens =>
        let _ := saveTokens env.set1 env.now newTokens
        ([.load, .refreshCall, .saveWrite (mkStoredTokens env.now newTokens)],
          some newTokens.access_token)
    else ([.load], some tokens.accessToken)

/-- The auth-error test of `callWithingsWithAutoRefresh`:
`e.message?.includes("401") || e.message?.includes("invalid") ||
e.message?.includes("expired")`. -/
def isWithingsAuthError (msg : String) : Bool :=
  stringIncludes msg "401" || stringIncludes msg "invalid" || stringIncludes msg "expired"

/-- The auth-error test of `callWhoopWithAutoRefresh`: additionally matches
`"404"` and the (case-sensitive) `"Unauthorized"`. -/
def isWhoopAuthError (msg : String) : Bool :=
  stringIncludes msg "401" || stringIncludes msg "404" || stringIncludes msg "invalid" ||
    stringIncludes msg "expired" || stringIncludes msg "Unauthorized"

/-- The `catch` block of `callWithingsWithAutoRefresh`: on an auth-shaped
failure `msg`, reload the stored tokens and — when they carry a truthy
refresh token — refresh, save (NO try/catch: a store-write failure
propagates), and re-invoke the operation once with the new access token;
otherwise rethrow `msg`. -/
def withingsReactive (env : Env α) (msg : String) : List Event × Except String α :=
  if isWithingsAuthError msg then
    match getWithingsTokens env.store2 env.envAccess env.envRefresh with
    | some tokens =>
      if jsTruthy tokens.refreshToken then
        match refreshAccessToken (some tokens.refreshToken) env.refresh2 with
        | .error e => ([.load, .refreshCall], .error e)
        | .ok newTokens =>
          match saveWithingsTokens env.set2 env.now newTokens with
          | .error e =>
            ([.load, .refreshCall, .saveWrite (mkStoredTokens env.now newTokens)],
              .error e)
          | .ok _ =>
            ([.load, .refreshCall, .saveWrite (mkStoredTokens env.now newTokens),
              .opCall 1 newTokens.access_token],
              env.op 1 newTokens.access_token)
      else ([.load], .error msg)
    | none => ([.load], .error msg)
  else ([], .error msg)

/-- api/mcp/[key].ts `callWithingsWithAutoRefresh`: ensure a token (throwing
the NotAuthorized message when none), invoke the operation, and on failure
run the catch block (`withingsReactive`). -/
def callWithingsWithAutoRefresh (env : Env α) : List Event × Except String α :=
  let r := ensureValidWithingsToken env
  match r.2 with
  | none => (r.1, .error "No valid Withings access token. Please authorize first.")
  | some accessToken =>
    match env.op 0 accessToken with
    | .ok v => (r.1 ++ [.opCall 0 accessToken], .ok v)
    | .error msg =>
      let k := withingsReactive env msg
      (r.1 ++ [.opCall 0 accessToken] ++ k.1, k.2)

/-- The `catch` block of `callWhoopWithAutoRefresh`: the wider WHOOP marker
set; the inner try/catch around refresh + save + retry rethrows the caught
failure unchanged, so refresh and save failures propagate exactly as in the
Withings wrapper. -/
def whoopReactive (env : Env α) (msg : String) : List Event × Except String α :=
  if isWhoopAuthError msg then
    match getWhoopTokens env.store2 env.envAccess env.envRefresh with
    | some tokens =>
      if jsTruthy tokens.refreshToken then
        match refreshWhoopAccessToken (some (jsTrim tokens.refreshToken)) env.refresh2 with
        | .error e => ([.load, .refreshCall], .error e)
        | .ok newTokens =>
          match saveWhoopTokens env.set2 env.now newTokens with
          | .error e =>
            ([.load, .refreshCall, .saveWrite (mkStoredTokens env.now newTokens)],
              .error e)
          | .ok _ =>
            ([.load, .refreshCall, .saveWrite (mkStoredTokens env.now newTokens),
              .opCall 1 newTokens.access_token],
              env.op 1 newTokens.access_token)
      else ([.load], .error msg)
    | none => ([.load], .error msg)
  else ([], .error msg)

/-- api/mcp/[key].ts `callWhoopWithAutoRefresh`. -/
def callWhoopWithAutoRefresh (env : Env α) : List Event × Except String α :=
  let r := ensureValidWhoopToken env
  match r.2 with
  | none => (r.1, .error "No valid WHOOP access token. Please authorize first.")
  | some accessToken =>
    match env.op 0 accessToken with
    | .ok v => (r.1 ++ [.opCall 0 accessToken], .ok v)
    | .error msg =>
      let k := whoopReactive env msg
      (r.1 ++ [.opCall 0 accessToken] ++ k.1, k.2)

/-- The `catch` block of the KV-variant `callWithAutoRefresh`: Withings
marker set, and the reactive save (`saveTokens`) swallows store failures, so
the retry runs even when persistence fails. -/
def kvReactive (env : Env α) (msg : String) : List Event × Except String α :=
  if isWithingsAuthError msg then
    match getTokens env.store2 env.envAccess env.envRefresh with
    | some tokens =>
      if jsTruthy tokens.refreshToken then
        match refreshAccessToken (some tokens.refreshToken) env.refresh2 with
        | .error e => ([.load, .refreshCall], .error e)
        | .ok newTokens =>
          let _ := saveTokens env.set2 env.now newTokens
          ([.load, .refreshCall, .saveWrite (mkStoredTokens env.now newTokens),
            .opCall 1 newTokens.access_token],
            env.op 1 newTokens.access_token)
      else ([.load], .error msg)
    | none => ([.load], .error msg)
  else ([], .error msg)

/-- api/mcp.ts (KV variant) `callWithAutoRefresh`. -/
def callWithAutoRefresh (env : Env α) : List Event × Except String α :=
  let r := ensureValidToken env
  match r.2 with
  | none => (r.1, .error "No valid access token. Please authorize first.")
  | some accessToken =>
    match env.op 0 accessToken with
    | .ok v => (r.1 ++ [.opCall 0 accessToken], .ok v)
    | .error msg =>
      let k := kvReactive env msg
      (r.1 ++ [.opCall 0 accessToken] ++ k.1, k.2)

/-! ## Tool-call date-range defaulting and upstream request parameters -/

/-- JS truthiness of the optional numeric `args.days` (`0` and `undefined`
are falsy). -/
def jsTruthyNum : Option ℤ → Bool
  | some d => d != 0
  | none => false

/-- The date-range block shared by the `withings_get_weight`,
`whoop_get_daily_stats` and `whoop_get_workouts` cases of `handleToolCall`
(api/mcp/[key].ts) and the matching src/index.ts handlers: when `args.days`
is truthy, `[now - days, now]` (calendar-day stepping in the UTC runtime
equals `days * 86400000` ms) and the supplied `start_date`/`end_date` are
never read; otherwise each bound is parsed iff supplied. Timestamps in
epoch ms. -/
def computeDateRange (now : ℤ) (days : Option ℤ) (startArg endArg : Option ℤ) :
    Option ℤ × Option ℤ :=
  if jsTruthyNum days then
    (some (now - days.getD 0 * 86400000), some now)
  else (startArg, endArg)

/-- src/withings.ts `getWeightMeasurements` request body: the fixed fields
plus `startdate`/`enddate`, each set only when the option is supplied, as
`Math.floor(date.getTime() / 1000)`. -/
def withingsMeasureParams (startDate endDate : Option ℤ) : List (String × String) :=
  [("action", "getmeas"), ("meastypes", "1,6,8,76,77,88"), ("category", "1")] ++
    (match startDate with
     | some s => [("startdate", toString (Int.fdiv s 1000))]
     | none => []) ++
    (match endDate with
     | some e => [("enddate", toString (Int.fdiv e 1000))]
     | none => [])

/-- The query parameters of src/whoop.ts `getWhoopCycles` / `getWhoopWorkouts`
/ `getWhoopRecoveries`: `start`/`end` set only when the option is supplied
(ISO rendering abstracted to the decimal epoch-ms value), `limit` only when
truthy. -/
def whoopCollectionParams (startDate endDate limit : Option ℤ) : List (String × String) :=
  (match startDate with
   | some s => [("start", toString s)]
   | none => []) ++
    (match endDate with
     | some e => [("end", toString e)]
     | none => []) ++
    (match limit with
     | some l => if l ≠ 0 then [("limit", toString l)] else []
     | none => [])

/-! ## The spec's authorization-marker set (for comparison with the code's) -/

/-- The two upstream providers. -/
inductive Provider where
  | withings
  | whoop
deriving DecidableEq, Repr

/-- Modelled from the spec: the claimed authorization-marker test — a message
"contains 401, or for the WHOOP provider 404, or invalid/expired/
unauthorized". Stated from the spec's words, to be compared with the code's
`isWithingsAuthError` / `isWhoopAuthError`. -/
def claimAuthMarker (p : Provider) (msg : String) : Bool :=
  stringIncludes msg "401" || (p == .whoop && stringIncludes msg "404") ||
    stringIncludes msg "invalid" || stringIncludes msg "expired" ||
    stringIncludes msg "unauthorized"

/-! ## Concrete records and environments used by counterexamples and
witnesses -/

/-- A stored record with unknown expiry (the env-var fallback shape). -/
def tokensAt0 : StoredTokens :=
  { accessToken := "A0", refreshToken := "R0", expiresAt := 0 }

/-- A fresh token-endpoint response. -/
def freshResponse : TokenResponse :=
  { access_token := "A1", refresh_token := "R1", expires_in := 3600 }

/-- Withings wrapper env where the first operation call fails with the
message `"unauthorized"` — a message the spec's marker set matches but
`isWithingsAuthError` does not. Refresh would succeed if attempted. -/
def envUnauthorizedMsg : Env Unit :=
  { now := 1000000
    store1 := .ok (some tokensAt0)
    store2 := .ok (some tokensAt0)
    envAccess := none
    envRefresh := none
    refresh1 := .ok freshResponse
    refresh2 := .ok freshResponse
    set1 := fun _ => .ok ()
    set2 := fun _ => .ok ()
    op := fun _ _ => .error "unauthorized" }

/-- Withings wrapper env where the first call fails with a 401,
the refresh succeeds, but every durable-store write fails; the retry would
succeed with the new token. -/
def envSaveFails : Env ℕ :=
  { now := 0
    store1 := .ok (some tokensAt0)
    store2 := .ok (some tokensAt0)
    envAccess := none
    envRefresh := none
    refresh1 := .ok freshResponse
    refresh2 := .ok freshResponse
    set1 := fun _ => .error "redis write failed"
    set2 := fun _ => .error "redis write failed"
    op := fun i _ => if i = 0 then .error "401" else .ok 7 }

/-- Withings happy reactive-retry env: first call 401, refresh and save
succeed, retry succeeds with the new access token. -/
def envRetryWithings : Env ℕ :=
  { now := 0
    store1 := .ok (some tokensAt0)
    store2 := .ok (some tokensAt0)
    envAccess := none
    envRefresh := none
    refresh1 := .ok freshResponse
    refresh2 := .ok freshResponse
    set1 := fun _ => .ok ()
    set2 := fun _ => .ok ()
    op := fun i tok => if i = 0 then .error "WHOOP API error: 401" else
      if tok = "A1" then .ok 42 else .error "wrong token" }

/-- WHOOP reactive-retry env exercising the WHOOP-only `"404"` marker. -/
def envRetryWhoop : Env ℕ :=
  { now := 0
    store1 := .ok (some tokensAt0)
    store2 := .ok (some tokensAt0)
    envAccess := none
    envRefresh := none
    refresh1 := .ok freshResponse
    refresh2 := .ok freshResponse
    set1 := fun _ => .ok ()
    set2 := fun _ => .ok ()
    op := fun i tok => if i = 0 then .error "WHOOP API error: 404 not found" else
      if tok = "A1" then .ok 9 else .error "wrong token" }

/-- A stored record expiring one minute from `now = 1000000` (within the
5-minute proactive window). -/
def tokensNearExpiry : StoredTokens :=
  { accessToken := "A0", refreshToken := "R0", expiresAt := 1060000 }

/-- Env whose stored record is near expiry and whose refresh fails: the
proactive path must degrade to the NotAuthorized message. -/
def envProactiveRefreshFails : Env ℕ :=
  { now := 1000000
    store1 := .ok (some tokensNearExpiry)
    store2 := .ok (some tokensNearExpiry)
    envAccess := none
    envRefresh := none
    refresh1 := .error "Token refresh failed: invalid_grant"
    refresh2 := .error "Token refresh failed: invalid_grant"
    set1 := fun _ => .ok ()
    set2 := fun _ => .ok ()
    op := fun _ _ => .ok 1 }

/-- A stored record comfortably in the future relative to `now = 1000000`. -/
def tokensFarFuture : StoredTokens :=
  { accessToken := "A0", refreshToken := "R0", expiresAt := 100000000 }

/-- Env with a far-future stored record: no proactive refresh may occur. -/
def envFreshToken : Env ℕ :=
  { now := 1000000
    store1 := .ok (some tokensFarFuture)
    store2 := .ok (some tokensFarFuture)
    envAccess := none
    envRefresh := none
    refresh1 := .ok freshResponse
    refresh2 := .ok freshResponse
    set1 := fun _ => .ok ()
    set2 := fun _ => .ok ()
    op := fun _ _ => .ok 5 }

/-- KV-variant env where the reactive save fails but the retry succeeds. -/
def envKvSaveFails : Env ℕ :=
  { now := 0
    store1 := .ok (some tokensAt0)
    store2 := .ok (some tokensAt0)
    envAccess := none
    envRefresh := none
    refresh1 := .ok freshResponse
    refresh2 := .ok freshResponse
    set1 := fun _ => .error "kv write failed"
    set2 := fun _ => .error "kv write failed"
    op := fun i tok => if i = 0 then .error "401" else
      if tok = "A1" then .ok 11 else .error "wrong token" }

/-- The cycle of the spec's daily-stats example (heart-rate fields chosen
arbitrarily; the claim fixes strain, kilojoule and the recovery values). -/
def exampleCycle : WhoopCycle :=
  { id := 1
    start := "2024-03-01T04:00:00.000Z"
    score_state := .SCORED
    score := some { strain := 10.04, kilojoule := 500
                    average_heart_rate := 60, max_heart_rate := 180 } }

/-- The recovery of the spec's daily-stats example. -/
def exampleRecovery : WhoopRecovery :=
  { cycle_id := 1
    score_state := .SCORED
    score := some { recovery_score := 80, resting_heart_rate := 55
                    hrv_rmssd_milli := 42.3 } }

/-- A scored workout whose start and end are 90 minutes apart. -/
def exampleWorkout : WhoopWorkout :=
  { id := 5
    start := 0
    stop := 5400000
    sport_name := "Running"
    score_state := .SCORED
    score := some { strain := 9, average_heart_rate := 140, max_heart_rate := 175
                    kilojoule := 1000, distance_meter := none } }

/-- A measurement group holding the spec's raw weight `(value=700, unit=-2)`. -/
def exampleWeightGroup : MeasureGroup :=
  { date := 1700000000, measures := [{ value := 700, type := 1, unit := -2 }] }

/-- A cycle still awaiting its score, with a `score` object present. -/
def pendingCycle : WhoopCycle :=
  { id := 2
    start := "2024-03-02T04:00:00.000Z"
    score_state := .PENDING_SCORE
    score := some { strain := 3, kilojoule := 100
                    average_heart_rate := 70, max_heart_rate := 120 } }

/-- An unscorable workout. -/
def unscorableWorkout : WhoopWorkout :=
  { id := 6
    start := 0
    stop := 600000
    sport_name := "Walking"
    score_state := .UNSCORABLE
    score := none }

/-- A measurement group with only a fat-ratio measure: its decoded weight
stays `0`, so the whole record must be dropped. -/
def zeroWeightGroup : MeasureGroup :=
  { date := 1700000100, measures := [{ value := 2510, type := 6, unit := -2 }] }

/-! ## Helper lemmas -/

theorem jsRound_eq_floor (q : ℚ) : jsRound q = ⌊q + 1/2⌋ := by
  simp [jsRound, Rat.floor_def, Rat.floor_def']

theorem jsTruthy_eq_true {s : String} (h : s ≠ "") : jsTruthy s = true := by
  simp [jsTruthy, h]

theorem ne_empty_of_jsTrim {s : String} (h : jsTrim s ≠ "") : s ≠ "" := by
  intro hs
  subst hs
  exact h rfl

theorem isExpired_false_of_fresh {now : ℤ} {tok : StoredTokens}
    (h : tok.expiresAt = 0 ∨ now + 5 * 60 * 1000 < tok.expiresAt) :
    isExpired now tok = false := by
  rcases h with h | h <;> simp [isExpired] <;> omega

theorem isExpired_true_of_near {now : ℤ} {tok : StoredTokens}
    (h1 : 0 < tok.expiresAt) (h2 : tok.expiresAt < now + 5 * 60 * 1000) :
    isExpired now tok = true := by
  simp [isExpired]
  omega

/-! ## C1 — reactive refresh-and-retry -/

/-- C1 counterexample: the claim's authorization-marker set
(`claimAuthMarker`) matches the message `"unauthorized"` for the Withings
provider, but `callWithingsWithAutoRefresh` performs NO reactive
refresh-and-retry on it — the stored record carries a refresh token and the
refresh would succeed, yet the wrapper propagates the error after a single
operation call, with no store reload, no refresh and no retry in its trace. -/
theorem withings_unauthorized_message_not_retried :
    claimAuthMarker .withings "unauthorized" = true ∧
    callWithingsWithAutoRefresh envUnauthorizedMsg =
      ([.load, .opCall 0 "A0"], .error "unauthorized") :=
  ⟨rfl, rfl⟩

/-- C1 (amended): with the marker sets as implemented (`isWithingsAuthError`:
"401"/"invalid"/"expired"; `isWhoopAuthError`: additionally "404" and the
case-sensitive "Unauthorized"), when the stored record reloaded in the catch
block carries a (truthy) refresh token, the wrapper performs exactly one
reactive refresh-and-retry: reload, refresh, persist the new record, and one
re-invocation of the operation with the newly issued access token; a refresh
or persist failure on this path propagates unmodified, and the retry's
outcome is returned as-is — no second retry. -/
theorem reactive_refresh_retries_exactly_once :
    (∀ (α : Type) (env : Env α) (ev1 : List Event) (t0 msg : String)
      (tok2 : StoredTokens),
      ensureValidWithingsToken env = (ev1, some t0) →
      env.op 0 t0 = .error msg →
      isWithingsAuthError msg = true →
      getWithingsTokens env.store2 env.envAccess env.envRefresh = some tok2 →
      tok2.refreshToken ≠ "" →
      (∀ e, env.refresh2 = .error e →
        callWithingsWithAutoRefresh env =
          (ev1 ++ [.opCall 0 t0, .load, .refreshCall], .error e)) ∧
      (∀ nt, env.refresh2 = .ok nt →
        (∀ e, env.set2 (mkStoredTokens env.now nt) = .error e →
          callWithingsWithAutoRefresh env =
            (ev1 ++ [.opCall 0 t0, .load, .refreshCall,
              .saveWrite (mkStoredTokens env.now nt)], .error e)) ∧
        (env.set2 (mkStoredTokens env.now nt) = .ok () →
          callWithingsWithAutoRefresh env =
            (ev1 ++ [.opCall 0 t0, .load, .refreshCall,
              .saveWrite (mkStoredTokens env.now nt),
              .opCall 1 nt.access_token], env.op 1 nt.access_token)))) ∧
    (∀ (α : Type) (env : Env α) (ev1 : List Event) (t0 msg : String)
      (tok2 : StoredTokens),
      ensureValidWhoopToken env = (ev1, some t0) →
      env.op 0 t0 = .error msg →
      isWhoopAuthError msg = true →
      getWhoopTokens env.store2 env.envAccess env.envRefresh = some tok2 →
      jsTrim tok2.refreshToken ≠ "" →
      (∀ e, env.refresh2 = .error e →
        callWhoopWithAutoRefresh env =
          (ev1 ++ [.opCall 0 t0, .load, .refreshCall], .error e)) ∧
      (∀ nt, env.refresh2 = .ok nt →
        (∀ e, env.set2 (mkStoredTokens env.now nt) = .error e →
          callWhoopWithAutoRefresh env =
            (ev1 ++ [.opCall 0 t0, .load, .refreshCall,
              .saveWrite (mkStoredTokens env.now nt)], .error e)) ∧
        (env.set2 (mkStoredTokens env.now nt) = .ok () →
          callWhoopWithAutoRefresh env =
            (ev1 ++ [.opCall 0 t0, .load, .refreshCall,
              .saveWrite (mkStoredTokens env.now nt),
              .opCall 1 nt.access_token], env.op 1 nt.access_token)))) := by
  constructor
  · intro α env ev1 t0 msg tok2 h1 h2 h3 h4 h5
    have htr := jsTruthy_eq_true h5
    refine ⟨fun e he => ?_, fun nt hnt => ⟨fun e hse => ?_, fun hso => ?_⟩⟩
    · simp [callWithingsWithAutoRefresh, h1, h2, withingsReactive, h3, h4, htr,
        refreshAccessToken, jsTruthyOpt, he, saveWithingsTokens]
    · simp [callWithingsWithAutoRefresh, h1, h2, withingsReactive, h3, h4, htr,
        refreshAccessToken, jsTruthyOpt, hnt, saveWithingsTokens, hse]
    · simp [callWithingsWithAutoRefresh, h1, h2, withingsReactive, h3, h4, htr,
        refreshAccessToken, jsTruthyOpt, hnt, saveWithingsTokens, hso]
  · intro α env ev1 t0 msg tok2 h1 h2 h3 h4 h5
    have htr := jsTruthy_eq_true (ne_empty_of_jsTrim h5)
    have htr2 := jsTruthy_eq_true h5
    refine ⟨fun e he => ?_, fun nt hnt => ⟨fun e hse => ?_, fun hso => ?_⟩⟩
    · simp [callWhoopWithAutoRefresh, h1, h2, whoopReactive, h3, h4, htr, htr2,
        refreshWhoopAccessToken, jsTruthyOpt, he, saveWhoopTokens]
    · simp [callWhoopWithAutoRefresh, h1, h2, whoopReactive, h3, h4, htr, htr2,
        refreshWhoopAccessToken, jsTruthyOpt, hnt, saveWhoopTokens, hse]
    · simp [callWhoopWithAutoRefresh, h1, h2, whoopReactive, h3, h4, htr, htr2,
        refreshWhoopAccessToken, jsTruthyOpt, hnt, saveWhoopTokens, hso]

/-- Witness for `reactive_refresh_retries_exactly_once`: a Withings call
failing with a 401-shaped message and a WHOOP call failing with a 404-shaped
message each produce exactly one reload + refresh + persist + retry, the
retry succeeding with the newly issued token `"A1"`. -/
theorem reactive_refresh_retries_exactly_once_witness :
    callWithingsWithAutoRefresh envRetryWithings =
      ([.load, .opCall 0 "A0", .load, .refreshCall,
        .saveWrite (mkStoredTokens 0 freshResponse), .opCall 1 "A1"], .ok 42) ∧
    callWhoopWithAutoRefresh envRetryWhoop =
      ([.load, .opCall 0 "A0", .load, .refreshCall,
        .saveWrite (mkStoredTokens 0 freshResponse), .opCall 1 "A1"], .ok 9) := by
  constructor
  · exact ((reactive_refresh_retries_exactly_once.1 ℕ envRetryWithings [.load] "A0"
      "WHOOP API error: 401" tokensAt0 rfl rfl rfl rfl (by decide)).2
      freshResponse rfl).2 rfl
  · exact ((reactive_refresh_retries_exactly_once.2 ℕ envRetryWhoop [.load] "A0"
      "WHOOP API error: 404 not found" tokensAt0 rfl rfl rfl rfl (by decide)).2
      freshResponse rfl).2 rfl

/-! ## C2 — persistence failures and the triggering call -/

/-- C2 counterexample: the Redis-backed `saveWithingsTokens` has no
try/catch, so a durable-store write failure IS raised to the caller: with a
401 on the first call, a successful refresh, and a failing `redis.set`, the
whole `callWithingsWithAutoRefresh` call fails with the store error even
though the retry with the new in-memory token (`op 1 "A1"`) would have
returned `7`. -/
theorem redis_save_failure_fails_reactive_retry :
    callWithingsWithAutoRefresh envSaveFails =
      ([.load, .opCall 0 "A0", .load, .refreshCall,
        .saveWrite (mkStoredTokens 0 freshResponse)], .error "redis write failed") ∧
    envSaveFails.op 1 "A1" = .ok 7 :=
  ⟨rfl, rfl⟩

/-- C2 (amended): the KV-backed and blob-backed `saveTokens` (api/mcp.ts)
swallow persistence failures — in the KV wrapper the call that triggered the
save still completes using the new in-memory token, and the blob variant
returns `null` instead of raising — but the Redis-backed
`saveWithingsTokens`/`saveWhoopTokens` (api/mcp/[key].ts) propagate a
store-write failure to the caller (see the counterexample). -/
theorem save_failure_nonfatal_in_kv_and_blob_variants :
    (∀ (α : Type) (env : Env α) (ev1 : List Event) (t0 msg : String)
      (tok2 : StoredTokens) (nt : TokenResponse) (e : String),
      ensureValidToken env = (ev1, some t0) →
      env.op 0 t0 = .error msg →
      isWithingsAuthError msg = true →
      getTokens env.store2 env.envAccess env.envRefresh = some tok2 →
      tok2.refreshToken ≠ "" →
      env.refresh2 = .ok nt →
      env.set2 (mkStoredTokens env.now nt) = .error e →
      callWithAutoRefresh env =
        (ev1 ++ [.opCall 0 t0, .load, .refreshCall,
          .saveWrite (mkStoredTokens env.now nt),
          .opCall 1 nt.access_token], env.op 1 nt.access_token)) ∧
    (∀ (put : StoredTokens → Except String String) (now : ℤ) (t : TokenResponse)
      (e : String),
      put (mkStoredTokens now t) = .error e →
      saveTokensBlob put now t = none) := by
  constructor
  · intro α env ev1 t0 msg tok2 nt e h1 h2 h3 h4 h5 h6 h7
    have htr := jsTruthy_eq_true h5
    simp [callWithAutoRefresh, h1, h2, kvReactive, h3, h4, htr,
      refreshAccessToken, jsTruthyOpt, h6, saveTokens]
  · intro put now t e h
    simp [saveTokensBlob, h]

/-- Witness for `save_failure_nonfatal_in_kv_and_blob_variants`: in the KV
wrapper a failing `kv.set` during the reactive path still lets the retry
complete (`.ok 11`), and the blob `saveTokens` returns `null` on a failing
`put`. -/
theorem save_failure_nonfatal_witness :
    callWithAutoRefresh envKvSaveFails =
      ([.load, .opCall 0 "A0", .load, .refreshCall,
        .saveWrite (mkStoredTokens 0 freshResponse), .opCall 1 "A1"], .ok 11) ∧
    saveTokensBlob (fun _ => .error "blob write failed") 0 freshResponse = none := by
  constructor
  · exact save_failure_nonfatal_in_kv_and_blob_variants.1 ℕ envKvSaveFails [.load]
      "A0" "401" tokensAt0 freshResponse "kv write failed" rfl rfl rfl rfl
      (by decide) rfl rfl
  · exact save_failure_nonfatal_in_kv_and_blob_variants.2
      (fun _ => .error "blob write failed") 0 freshResponse "blob write failed" rfl

/-! ## C3 — no refresh before the operation when the token is fresh -/

/-- C3: when the stored record's `expiresAt` is `0` or more than 5 minutes
after `now`, `ensureValid*Token` returns the stored access token having
performed only the load, and the wrapper's first two external calls are the
load followed directly by the operation invoked with the stored access
token — no refresh call occurs before the operation's first invocation. -/
theorem fresh_token_calls_operation_without_refresh :
    (∀ (α : Type) (env : Env α) (tok : StoredTokens),
      getWithingsTokens env.store1 env.envAccess env.envRefresh = some tok →
      tok.expiresAt = 0 ∨ env.now + 5 * 60 * 1000 < tok.expiresAt →
      ensureValidWithingsToken env = ([.load], some tok.accessToken) ∧
      ∃ rest res, callWithingsWithAutoRefresh env =
        (.load :: .opCall 0 tok.accessToken :: rest, res)) ∧
    (∀ (α : Type) (env : Env α) (tok : StoredTokens),
      getWhoopTokens env.store1 env.envAccess env.envRefresh = some tok →
      tok.expiresAt = 0 ∨ env.now + 5 * 60 * 1000 < tok.expiresAt →
      ensureValidWhoopToken env = ([.load], some tok.accessToken) ∧
      ∃ rest res, callWhoopWithAutoRefresh env =
        (.load :: .opCall 0 tok.accessToken :: rest, res)) := by
  constructor
  · intro α env tok h1 h2
    have hexp := isExpired_false_of_fresh h2
    have hens : ensureValidWithingsToken env = ([.load], some tok.accessToken) := by
      simp [ensureValidWithingsToken, h1, hexp]
    refine ⟨hens, ?_⟩
    cases hop : env.op 0 tok.accessToken with
    | ok v => exact ⟨[], .ok v, by simp [callWithingsWithAutoRefresh, hens, hop]⟩
    | error msg =>
      exact ⟨(withingsReactive env msg).1, (withingsReactive env msg).2,
        by simp [callWithingsWithAutoRefresh, hens, hop]⟩
  · intro α env tok h1 h2
    have hexp := isExpired_false_of_fresh h2
    have hens : ensureValidWhoopToken env = ([.load], some tok.accessToken) := by
      simp [ensureValidWhoopToken, h1, hexp]
    refine ⟨hens, ?_⟩
    cases hop : env.op 0 tok.accessToken with
    | ok v => exact ⟨[], .ok v, by simp [callWhoopWithAutoRefresh, hens, hop]⟩
    | error msg =>
      exact ⟨(whoopReactive env msg).1, (whoopReactive env msg).2,
        by simp [callWhoopWithAutoRefresh, hens, hop]⟩

/-- Witness for `fresh_token_calls_operation_without_refresh` at a record
expiring far in the future (both providers). -/
theorem fresh_token_no_refresh_witness :
    (ensureValidWithingsToken envFreshToken = ([.load], some "A0") ∧
      ∃ rest res, callWithingsWithAutoRefresh envFreshToken =
        (.load :: .opCall 0 "A0" :: rest, res)) ∧
    (ensureValidWhoopToken envFreshToken = ([.load], some "A0") ∧
      ∃ rest res, callWhoopWithAutoRefresh envFreshToken =
        (.load :: .opCall 0 "A0" :: rest, res)) :=
  ⟨fresh_token_calls_operation_without_refresh.1 ℕ envFreshToken tokensFarFuture
      rfl (Or.inr (by decide)),
    fresh_token_calls_operation_without_refresh.2 ℕ envFreshToken tokensFarFuture
      rfl (Or.inr (by decide))⟩

/-! ## C4 — proactive refresh failure degrades to NotAuthorized -/

/-- C4: when the stored record is near expiry (`0 < expiresAt < now + 5min`)
and the proactive refresh attempt fails, the wrapper fails with its
NotAuthorized message (not the raw refresh error) and the wrapped operation
is never invoked: the whole trace is the load and the failed refresh call.
Shown for the WHOOP wrapper (api/mcp/[key].ts) and the KV-variant wrapper
(api/mcp.ts). -/
theorem proactive_refresh_failure_degrades_to_not_authorized :
    (∀ (α : Type) (env : Env α) (tok : StoredTokens) (e : String),
      getWhoopTokens env.store1 env.envAccess env.envRefresh = some tok →
      0 < tok.expiresAt →
      tok.expiresAt < env.now + 5 * 60 * 1000 →
      jsTrim tok.refreshToken ≠ "" →
      env.refresh1 = .error e →
      callWhoopWithAutoRefresh env = ([.load, .refreshCall],
        .error "No valid WHOOP access token. Please authorize first.")) ∧
    (∀ (α : Type) (env : Env α) (tok : StoredTokens) (e : String),
      getTokens env.store1 env.envAccess env.envRefresh = some tok →
      0 < tok.expiresAt →
      tok.expiresAt < env.now + 5 * 60 * 1000 →
      tok.refreshToken ≠ "" →
      env.refresh1 = .error e →
      callWithAutoRefresh env = ([.load, .refreshCall],
        .error "No valid access token. Please authorize first.")) := by
  constructor
  · intro α env tok e h1 h2 h3 h4 h5
    have hexp := isExpired_true_of_near h2 h3
    have htr := jsTruthy_eq_true (ne_empty_of_jsTrim h4)
    have htr2 := jsTruthy_eq_true h4
    have hens : ensureValidWhoopToken env = ([.load, .refreshCall], none) := by
      simp [ensureValidWhoopToken, h1, hexp, htr, refreshWhoopAccessToken,
        jsTruthyOpt, htr2, h5]
    simp [callWhoopWithAutoRefresh, hens]
  · intro α env tok e h1 h2 h3 h4 h5
    have hexp := isExpired_true_of_near h2 h3
    have htr := jsTruthy_eq_true h4
    have hens : ensureValidToken env = ([.load, .refreshCall], none) := by
      simp [ensureValidToken, h1, hexp, refreshAccessToken, jsTruthyOpt, htr, h5]
    simp [callWithAutoRefresh, hens]

/-- Witness for `proactive_refresh_failure_degrades_to_not_authorized` at a
record expiring one minute from now whose refresh is rejected. -/
theorem proactive_refresh_failure_witness :
    callWhoopWithAutoRefresh envProactiveRefreshFails = ([.load, .refreshCall],
      .error "No valid WHOOP access token. Please authorize first.") ∧
    callWithAutoRefresh envProactiveRefreshFails = ([.load, .refreshCall],
      .error "No valid access token. Please authorize first.") :=
  ⟨proactive_refresh_failure_degrades_to_not_authorized.1 ℕ
      envProactiveRefreshFails tokensNearExpiry "Token refresh failed: invalid_grant"
      rfl (by decide) (by decide) (by decide) rfl,
    proactive_refresh_failure_degrades_to_not_authorized.2 ℕ
      envProactiveRefreshFails tokensNearExpiry "Token refresh failed: invalid_grant"
      rfl (by decide) (by decide) (by decide) rfl⟩

/-! ## C5 — score-state gating -/

theorem recoveryLookup_mem_of_eq_some :
    ∀ (recs : List WhoopRecovery) (acc : Option WhoopRecovery) (i : ℤ)
      (r : WhoopRecovery),
      recs.foldl (fun acc x => if x.cycle_id = i then some x else acc) acc = some r →
      r ∈ recs ∨ acc = some r := by
  intro recs
  induction recs with
  | nil => intro acc i r h; exact Or.inr h
  | cons x xs ih =>
    intro acc i r h
    rw [List.foldl_cons] at h
    rcases ih _ i r h with hmem | hacc
    · exact Or.inl (List.mem_cons_of_mem _ hmem)
    · by_cases hx : x.cycle_id = i
      · rw [if_pos hx] at hacc
        cases hacc
        exact Or.inl (List.mem_cons_self _ _)
      · rw [if_neg hx] at hacc
        exact Or.inr hacc

theorem cycleToDailyStats_recovery (recs : List WhoopRecovery) (c : WhoopCycle) :
    (cycleToDailyStats recs c).recovery =
      match recoveryLookup recs c.id with
      | some r =>
        if r.score_state == ScoreState.SCORED && r.score.isSome then
          some { score := (r.score.getD ⟨0, 0, 0⟩).recovery_score
                 restingHeartRate := (r.score.getD ⟨0, 0, 0⟩).resting_heart_rate
                 hrv := round1 (r.score.getD ⟨0, 0, 0⟩).hrv_rmssd_milli }
        else none
      | none => none := rfl

/-- C5: an unscored provider record never reaches the normalized output.
For cycles and workouts, deleting a record that is not fully scored
(`PENDING_SCORE`/`UNSCORABLE`) or whose `score` is absent leaves
`getWhoopDailyStats` / `getWhoopWorkoutData` unchanged. Recoveries never
produce entries of their own; for them the gate is proved directly: every
nested `recovery` object in the daily-stats output is derived from a
recovery in the input list that is `SCORED` with a `score` present, so an
unscored or score-less recovery contributes nothing to the output (at most
it leaves an entry's `recovery` field `none`). All three functions are
total, so the exclusion produces no error. -/
theorem unscored_records_never_reach_output :
    (∀ (c : WhoopCycle) (l1 l2 : List WhoopCycle) (recs : List WhoopRecovery),
      c.score_state ≠ .SCORED ∨ c.score = none →
      getWhoopDailyStats (l1 ++ c :: l2) recs = getWhoopDailyStats (l1 ++ l2) recs) ∧
    (∀ (w : WhoopWorkout) (l1 l2 : List WhoopWorkout),
      w.score_state ≠ .SCORED ∨ w.score = none →
      getWhoopWorkoutData (l1 ++ w :: l2) = getWhoopWorkoutData (l1 ++ l2)) ∧
    (∀ (cycles : List WhoopCycle) (recs : List WhoopRecovery) (d : DailyStats)
      (rs : RecoverySummary),
      d ∈ getWhoopDailyStats cycles recs → d.recovery = some rs →
      ∃ r ∈ recs, r.score_state = .SCORED ∧ ∃ sc, r.score = some sc ∧
        rs = { score := sc.recovery_score
               restingHeartRate := sc.resting_heart_rate
               hrv := round1 sc.hrv_rmssd_milli }) := by
  refine ⟨?_, ?_, ?_⟩
  · intro c l1 l2 recs h
    have hc : cycleScored c = false := by
      rcases h with h | h <;> simp [cycleScored, h]
    simp [getWhoopDailyStats, List.filter_append, List.filter_cons, hc]
  · intro w l1 l2 h
    have hw : workoutScored w = false := by
      rcases h with h | h <;> simp [workoutScored, h]
    simp [getWhoopWorkoutData, List.filter_append, List.filter_cons, hw]
  · intro cycles recs d rs hd hrec
    simp only [getWhoopDailyStats, List.mem_map] at hd
    obtain ⟨c, _, rfl⟩ := hd
    rw [cycleToDailyStats_recovery] at hrec
    cases hl : recoveryLookup recs c.id with
    | none => rw [hl] at hrec; cases hrec
    | some r =>
      rw [hl] at hrec
      by_cases hg : (r.score_state == ScoreState.SCORED && r.score.isSome) = true
      · simp only [hg, if_true] at hrec
        have hmem : r ∈ recs := by
          rcases recoveryLookup_mem_of_eq_some recs none c.id r hl with h | h
          · exact h
          · cases h
        have hand := (Bool.and_eq_true _ _).mp hg
        have hss : r.score_state = ScoreState.SCORED := eq_of_beq hand.1
        obtain ⟨sc, hsc⟩ := Option.isSome_iff_exists.mp hand.2
        injection hrec with hrs
        refine ⟨r, hmem, hss, sc, hsc, ?_⟩
        rw [← hrs, hsc]
        simp
      · rw [Bool.not_eq_true] at hg
        simp only [hg, if_false] at hrec
        cases hrec

/-- Witness for `unscored_records_never_reach_output`: inserting a
`PENDING_SCORE` cycle (with a `score` present) or an `UNSCORABLE` workout
leaves the normalized output unchanged, and the one nested recovery object
produced by the example join is accounted for by the scored
`exampleRecovery`. -/
theorem unscored_records_witness :
    getWhoopDailyStats [pendingCycle, exampleCycle] [exampleRecovery] =
      getWhoopDailyStats [exampleCycle] [exampleRecovery] ∧
    getWhoopWorkoutData [unscorableWorkout, exampleWorkout] =
      getWhoopWorkoutData [exampleWorkout] ∧
    ∃ r ∈ [exampleRecovery], r.score_state = .SCORED ∧ ∃ sc, r.score = some sc ∧
      ({ score := 80, restingHeartRate := 55, hrv := round1 42.3 } : RecoverySummary) =
        { score := sc.recovery_score
          restingHeartRate := sc.resting_heart_rate
          hrv := round1 sc.hrv_rmssd_milli } :=
  ⟨unscored_records_never_reach_output.1 pendingCycle [] [exampleCycle]
      [exampleRecovery] (Or.inl (by decide)),
    unscored_records_never_reach_output.2.1 unscorableWorkout [] [exampleWorkout]
      (Or.inl (by decide)),
    unscored_records_never_reach_output.2.2 [exampleCycle] [exampleRecovery]
      (cycleToDailyStats [exampleRecovery] exampleCycle)
      { score := 80, restingHeartRate := 55, hrv := round1 42.3 }
      (List.Mem.head _) rfl⟩

/-! ## C6 — weight decoding and the zero-weight filter -/

/-- C6: a raw measurement decodes as `value * 10^unit` rounded to 2 decimals
(shown at the weight update site), the spec's `(value=700, unit=-2)` group
decodes to exactly `7.00` kg, and any group whose decoded weight is `0` is
silently dropped from `parseWeightData`'s output. -/
theorem weight_decoding_and_zero_filter :
    (∀ (r : WeightData) (m : Measurement), m.type = 1 →
      (applyMeasure r m).weight = round2 ((m.value : ℚ) * (10 : ℚ) ^ m.unit)) ∧
    parseWeightData [exampleWeightGroup] =
      [{ weight := 7, date := 1700000000000 }] ∧
    (∀ (g : MeasureGroup) (l1 l2 : List MeasureGroup),
      (parseGroup g).weight = 0 →
      parseWeightData (l1 ++ g :: l2) = parseWeightData (l1 ++ l2)) := by
  refine ⟨?_, ?_, ?_⟩
  · intro r m h
    simp [applyMeasure, decodeMeasure, h]
  · have hpg : parseGroup exampleWeightGroup = { weight := 7, date := 1700000000000 } := by
      simp [parseGroup, exampleWeightGroup, applyMeasure, decodeMeasure]
      norm_num [round2, jsRound, Rat.floor_def']
    have hw : decide ((0 : ℚ) < (7 : ℚ)) = true := by norm_num
    simp [parseWeightData, hpg, hw]
  · intro g l1 l2 h
    simp [parseWeightData, List.filter_append, List.filter_cons, h]

/-- Witness for `weight_decoding_and_zero_filter`: the weight update at the
`(700, -2)` measurement, and a fat-ratio-only group (decoded weight `0`)
dropped from the output. -/
theorem weight_zero_filter_witness :
    (applyMeasure { weight := 0, date := 0 } { value := 700, type := 1, unit := -2 }).weight =
      round2 ((700 : ℚ) * (10 : ℚ) ^ (-2 : ℤ)) ∧
    parseWeightData [zeroWeightGroup, exampleWeightGroup] =
      parseWeightData [exampleWeightGroup] := by
  constructor
  · exact weight_decoding_and_zero_filter.1 { weight := 0, date := 0 }
      { value := 700, type := 1, unit := -2 } rfl
  · exact weight_decoding_and_zero_filter.2.2 zeroWeightGroup [] [exampleWeightGroup]
      (by norm_num [parseGroup, zeroWeightGroup, applyMeasure, decodeMeasure])

/-! ## C7 — kilojoule-to-calories conversion -/

/-- C7: for `kJ ≥ 0`, `kilojouleToCalories kJ = round(kJ * 0.239)`, and the
function is monotone non-decreasing on `0 ≤ kJ1 ≤ kJ2`. -/
theorem calories_formula_and_monotone :
    (∀ kj : ℚ, 0 ≤ kj → kilojouleToCalories kj = jsRound (kj * 0.239)) ∧
    (∀ a b : ℚ, 0 ≤ a → a ≤ b →
      kilojouleToCalories a ≤ kilojouleToCalories b) := by
  constructor
  · intro kj _
    rfl
  · intro a b _ hab
    simp only [kilojouleToCalories, jsRound_eq_floor]
    exact Int.floor_mono (add_le_add_right
      (mul_le_mul_of_nonneg_right hab (by norm_num)) _)

/-- Witness for `calories_formula_and_monotone` at `kJ = 500 ≤ 1000`. -/
theorem calories_monotone_witness :
    kilojouleToCalories 500 = jsRound ((500 : ℚ) * 0.239) ∧
    kilojouleToCalories 500 ≤ kilojouleToCalories 1000 :=
  ⟨calories_formula_and_monotone.1 500 (by norm_num),
    calories_formula_and_monotone.2 500 1000 (by norm_num) (by norm_num)⟩

/-! ## C8 — daily-stats join of cycles and recoveries -/

/-- C8: the spec's example — cycle `id 1` scored with strain `10.04` and
`500` kJ, recovery `cycle_id 1` scored with recovery `80`, rhr `55`, hrv
`42.3` — normalizes to exactly one entry with strain `10.0`, `120` calories
and a nested recovery with hrv `42.3`; and in general a scored cycle with no
matching scored recovery still yields its entry, with `recovery` omitted. -/
theorem daily_stats_join_and_missing_recovery :
    getWhoopDailyStats [exampleCycle] [exampleRecovery] =
      [{ date := "2024-03-01T04:00:00.000Z", strain := 10, caloriesBurned := 120,
         averageHeartRate := 60, maxHeartRate := 180,
         recovery := some { score := 80, restingHeartRate := 55, hrv := 42.3 } }] ∧
    (∀ (c : WhoopCycle) (s : CycleScore) (recs : List WhoopRecovery),
      c.score_state = .SCORED → c.score = some s →
      (∀ r, recoveryLookup recs c.id = some r →
        ¬(r.score_state = .SCORED ∧ r.score.isSome = true)) →
      getWhoopDailyStats [c] recs =
        [{ date := c.start, strain := round1 s.strain,
           caloriesBurned := kilojouleToCalories s.kilojoule,
           averageHeartRate := s.average_heart_rate,
           maxHeartRate := s.max_heart_rate,
           recovery := none }]) := by
  constructor
  · simp [getWhoopDailyStats, cycleScored, exampleCycle, exampleRecovery,
      cycleToDailyStats, recoveryLookup]
    norm_num [round1, kilojouleToCalories, jsRound, Rat.floor_def']
  · intro c s recs h1 h2 h3
    have hsc : cycleScored c = true := by simp [cycleScored, h1, h2]
    simp only [getWhoopDailyStats, List.filter_cons, hsc, if_pos,
      List.filter_nil, List.map_cons, List.map_nil, cycleToDailyStats, h2,
      Option.getD_some]
    cases hl : recoveryLookup recs c.id with
    | none => simp
    | some r =>
      have hfalse : (r.score_state == ScoreState.SCORED && r.score.isSome) = false := by
        by_cases hss : r.score_state = ScoreState.SCORED
        · have hns : r.score.isSome = false := by
            cases hiss : r.score.isSome
            · rfl
            · exact absurd ⟨hss, hiss⟩ (h3 r hl)
          simp [hns]
        · simp [hss]
      simp [hfalse]

/-- Witness for `daily_stats_join_and_missing_recovery`: the example cycle
with an empty recovery list still produces its entry, `recovery` omitted. -/
theorem daily_stats_missing_recovery_witness :
    getWhoopDailyStats [exampleCycle] [] =
      [{ date := exampleCycle.start, strain := round1 10.04,
         caloriesBurned := kilojouleToCalories 500,
         averageHeartRate := 60, maxHeartRate := 180, recovery := none }] :=
  daily_stats_join_and_missing_recovery.2 exampleCycle
    { strain := 10.04, kilojoule := 500, average_heart_rate := 60, max_heart_rate := 180 }
    [] rfl rfl (fun _ h => nomatch h)

/-! ## C9 — workout duration in rounded minutes -/

/-- C9: every scored workout normalizes to a single entry whose `duration` is
the millisecond difference between its end and start timestamps divided by
60000 and rounded; the example workout whose bounds are 90 minutes apart
yields `duration = 90` (with the rest of its normalized entry). -/
theorem workout_duration_rounded_minutes :
    (∀ (w : WhoopWorkout) (s : WorkoutScore),
      w.score_state = .SCORED → w.score = some s →
      getWhoopWorkoutData [w] = [workoutToData w] ∧
      (workoutToData w).duration = jsRound (((w.stop - w.start : ℤ) : ℚ) / 60000)) ∧
    getWhoopWorkoutData [exampleWorkout] =
      [{ id := 5, date := 0, sport := "Running", duration := 90, strain := 9,
         caloriesBurned := 239, averageHeartRate := 140, maxHeartRate := 175,
         distance := none }] := by
  constructor
  · intro w s h1 h2
    have hsc : workoutScored w = true := by simp [workoutScored, h1, h2]
    exact ⟨by simp [getWhoopWorkoutData, List.filter_cons, hsc], by simp [workoutToData]⟩
  · have hsc : workoutScored exampleWorkout = true := by
      simp [workoutScored, exampleWorkout]
    have hfil : getWhoopWorkoutData [exampleWorkout] = [workoutToData exampleWorkout] := by
      simp [getWhoopWorkoutData, List.filter_cons, hsc]
    rw [hfil]
    simp [workoutToData, exampleWorkout]
    norm_num [round1, kilojouleToCalories, jsRound, Rat.floor_def']

/-- Witness for `workout_duration_rounded_minutes` at the 90-minute example
workout. -/
theorem workout_duration_witness :
    getWhoopWorkoutData [exampleWorkout] = [workoutToData exampleWorkout] ∧
    (workoutToData exampleWorkout).duration =
      jsRound (((exampleWorkout.stop - exampleWorkout.start : ℤ) : ℚ) / 60000) :=
  workout_duration_rounded_minutes.1 exampleWorkout
    { strain := 9, average_heart_rate := 140, max_heart_rate := 175,
      kilojoule := 1000, distance_meter := none } rfl rfl

/-! ## C10 — days overrides the explicit range; unsupplied bounds omitted -/

/-- C10: a nonzero `days` argument makes the range `[now - days, now]` and
the supplied `start_date`/`end_date` are ignored; with `days` absent or `0`
each bound is passed through exactly as supplied; and an unsupplied bound
never appears in the upstream request parameters (Withings
`startdate`/`enddate` in floored epoch seconds, WHOOP `start`/`end`), while
a supplied one appears with the value the code computes. -/
theorem date_range_days_overrides_and_omission :
    (∀ (now d : ℤ) (s e : Option ℤ), d ≠ 0 →
      computeDateRange now (some d) s e = (some (now - d * 86400000), some now)) ∧
    (∀ (now : ℤ) (s e : Option ℤ),
      computeDateRange now none s e = (s, e) ∧
      computeDateRange now (some 0) s e = (s, e)) ∧
    (∀ e : Option ℤ,
      (withingsMeasureParams none e).lookup "startdate" = none ∧
      (withingsMeasureParams e none).lookup "enddate" = none) ∧
    (∀ (s : ℤ) (e : Option ℤ),
      (withingsMeasureParams (some s) e).lookup "startdate" =
        some (toString (Int.fdiv s 1000)) ∧
      (withingsMeasureParams e (some s)).lookup "enddate" =
        some (toString (Int.fdiv s 1000))) ∧
    (∀ e l : Option ℤ,
      (whoopCollectionParams none e l).lookup "start" = none ∧
      (whoopCollectionParams e none l).lookup "end" = none) ∧
    (∀ (s : ℤ) (e l : Option ℤ),
      (whoopCollectionParams (some s) e l).lookup "start" = some (toString s) ∧
      (whoopCollectionParams e (some s) l).lookup "end" = some (toString s)) := by
  refine ⟨?_, ?_, ?_, ?_, ?_, ?_⟩
  · intro now d s e hd
    simp [computeDateRange, jsTruthyNum, hd]
  · intro now s e
    exact ⟨rfl, rfl⟩
  · intro e
    rcases e with _ | ev <;> exact ⟨rfl, rfl⟩
  · intro s e
    rcases e with _ | ev <;> exact ⟨rfl, rfl⟩
  · intro e l
    rcases e with _ | ev <;> rcases l with _ | lv
    · exact ⟨rfl, rfl⟩
    · constructor
      · by_cases hl : lv = 0 <;> simp [whoopCollectionParams, hl, List.lookup]
      · by_cases hl : lv = 0 <;> simp [whoopCollectionParams, hl, List.lookup]
    · exact ⟨rfl, rfl⟩
    · constructor
      · by_cases hl : lv = 0 <;> simp [whoopCollectionParams, hl, List.lookup]
      · by_cases hl : lv = 0 <;> simp [whoopCollectionParams, hl, List.lookup]
  · intro s e l
    rcases e with _ | ev <;> rcases l with _ | lv
    · exact ⟨rfl, rfl⟩
    · constructor
      · by_cases hl : lv = 0 <;> simp [whoopCollectionParams, hl, List.lookup]
      · by_cases hl : lv = 0 <;> simp [whoopCollectionParams, hl, List.lookup]
    · exact ⟨rfl, rfl⟩
    · constructor
      · by_cases hl : lv = 0 <;> simp [whoopCollectionParams, hl, List.lookup]
      · by_cases hl : lv = 0 <;> simp [whoopCollectionParams, hl, List.lookup]

/-- Witness for `date_range_days_overrides_and_omission` at `days = 7`,
`now = 1000000`, a supplied pair of bounds, and concrete parameter lists. -/
theorem date_range_witness :
    computeDateRange 1000000 (some 7) (some 1) (some 2) =
      (some (1000000 - 7 * 86400000), some 1000000) ∧
    computeDateRange 1000000 none (some 1) (some 2) = (some 1, some 2) ∧
    computeDateRange 1000000 (some 0) (some 1) (some 2) = (some 1, some 2) ∧
    (withingsMeasureParams none (some 2)).lookup "startdate" = none ∧
    (withingsMeasureParams (some 1500) none).lookup "startdate" =
      some (toString (Int.fdiv 1500 1000)) ∧
    (whoopCollectionParams none (some 2) none).lookup "start" = none ∧
    (whoopCollectionParams (some 3) none none).lookup "start" = some (toString 3) :=
  ⟨date_range_days_overrides_and_omission.1 1000000 7 (some 1) (some 2) (by decide),
    (date_range_days_overrides_and_omission.2.1 1000000 (some 1) (some 2)).1,
    (date_range_days_overrides_and_omission.2.1 1000000 (some 1) (some 2)).2,
    (date_range_days_overrides_and_omission.2.2.1 (some 2)).1,
    (date_range_days_overrides_and_omission.2.2.2.1 1500 none).1,
    (date_range_days_overrides_and_omission.2.2.2.2.1 (some 2) none).1,
    (date_range_days_overrides_and_omission.2.2.2.2.2 3 none none).1⟩
